import Mathlib

/-!
Verification of the data-ingestion-and-report-synthesis pipeline of the
Data-Summarization repository (src/data_analyzer.py) against its
natural-language specification.

Shallow embedding conventions:
* pandas DataFrames become `Dataset` (an explicit row count plus named columns
  of `CellValue`s); `pd.DataFrame(...)` constructors that can raise become
  `Option Dataset` (none = exception).
* Python floats are idealised as exact rationals; the two float results that
  are square roots (the standard deviation, and the skewness formula) are
  recorded through their rational determining data (the variance, and the
  central moments), with the real value recovered by `Real.sqrt` where a claim
  needs it.  A float NaN (`Series.std()` of a single value) is `none`.
* `json.loads` is embedded as a small executable recursive-descent parser
  `jsonParse` covering the JSON fragment relevant to the program (objects,
  arrays, strings without escape sequences, decimal numbers, literals).
* `pd.read_csv` is embedded as `csvParse`: newline/comma splitting, header
  row, blank-line skipping, per-column numeric dtype inference (a column whose
  every field is empty or numeric gets numeric dtype, otherwise object dtype
  with the raw strings kept), NaN for empty fields, error on rows with more
  fields than the header.
* filesystem and network effects are oracles in a `Ctx` record; an oracle
  returning `Except.error` models a raised exception (for HTTP also a
  non-success status, since the code calls `raise_for_status`).
* Python exceptions are `Except String`; a `try/except` that returns `None`
  becomes the `.toOption` / wrapper pattern.
-/

namespace DataSum

/-- JSON values as produced by `json.loads` (numbers idealised as rationals). -/
inductive Json where
  | null : Json
  | bool (b : Bool) : Json
  | num (q : ℚ) : Json
  | str (s : String) : Json
  | arr (elems : List Json) : Json
  | obj (fields : List (String × Json)) : Json

/-- A DataFrame cell: a number, a string, a boolean, a nested structure
(dict/list held in an object column), or a missing value (NaN/None). -/
inductive CellValue where
  | num (q : ℚ) : CellValue
  | str (s : String) : CellValue
  | bool (b : Bool) : CellValue
  | nested (j : Json) : CellValue
  | missing : CellValue

/-- A normalized tabular dataset: a row count and named columns.  The
well-formedness facts (each column has `nrows` cells, column names unique)
are carried as hypotheses by the theorems that need them. -/
structure Dataset where
  nrows : Nat
  cols : List (String × List CellValue)

def Dataset.ncols (ds : Dataset) : Nat := ds.cols.length

def CellValue.isMissingB : CellValue → Bool
  | .missing => true
  | _ => false

def CellValue.isNumB : CellValue → Bool
  | .num _ => true
  | _ => false

def CellValue.isBoolB : CellValue → Bool
  | .bool _ => true
  | _ => false

/-- `isinstance(v, (dict, list))`: the cell holds a nested structure. -/
def CellValue.isNestedB : CellValue → Bool
  | .nested _ => true
  | _ => false

/-- The cell holds a nested mapping (a dict). -/
def CellValue.isObjB : CellValue → Bool
  | .nested (.obj _) => true
  | _ => false

def CellValue.num? : CellValue → Option ℚ
  | .num q => some q
  | _ => none

def dedupGo (eq : α → α → Bool) (acc : List α) : List α → List α
  | [] => acc.reverse
  | x :: xs =>
    if acc.any (fun y => eq y x) then dedupGo eq acc xs
    else dedupGo eq (x :: acc) xs

/-- First-encounter-order deduplication with an explicit equality test. -/
def dedupBy (eq : α → α → Bool) (l : List α) : List α := dedupGo eq [] l

/-- Stable insertion into a list sorted by `le`. -/
def insertLe (le : α → α → Bool) (x : α) : List α → List α
  | [] => [x]
  | y :: ys => if le x y then x :: y :: ys else y :: insertLe le x ys

/-- Stable insertion sort (used for medians and frequency ranking). -/
def sortLe (le : α → α → Bool) : List α → List α
  | [] => []
  | x :: xs => insertLe le x (sortLe le xs)

/-! ## The JSON parser embedding `json.loads` -/

def skipWs : List Char → List Char
  | [] => []
  | c :: cs => if c = ' ' || c = '\n' || c = '\t' || c = '\r' then skipWs cs else c :: cs

/-- String body parser (after the opening quote; escape sequences rejected). -/
def parseStrAux : List Char → List Char → Option (String × List Char)
  | _, [] => none
  | acc, c :: rest =>
    if c = '"' then some (String.mk acc.reverse, rest)
    else if c = '\\' then none
    else parseStrAux (c :: acc) rest

def digitsToNat (ds : List Char) : Nat :=
  ds.foldl (fun n c => n * 10 + (c.toNat - 48)) 0

def parseNumChars (cs : List Char) : Option (Json × List Char) :=
  let signed := match cs with
    | '-' :: r => (true, r)
    | _ => (false, cs)
  let ip := signed.2.takeWhile Char.isDigit
  let cs2 := signed.2.dropWhile Char.isDigit
  if ip.isEmpty then none
  else
    let intPart : ℚ := (digitsToNat ip : ℚ)
    match cs2 with
    | '.' :: r =>
      let fp := r.takeWhile Char.isDigit
      let cs3 := r.dropWhile Char.isDigit
      if fp.isEmpty then none
      else
        let q : ℚ := intPart + (digitsToNat fp : ℚ) / ((10 : ℚ) ^ fp.length)
        some (Json.num (if signed.1 then -q else q), cs3)
    | rest => some (Json.num (if signed.1 then -intPart else intPart), rest)

mutual

/-- Fuel-indexed JSON value parser. -/
def parseV : Nat → List Char → Option (Json × List Char)
  | 0, _ => none
  | f + 1, cs =>
    match skipWs cs with
    | '\x7b' :: rest => parseObjBody f (skipWs rest)
    | '[' :: rest => parseArrBody f (skipWs rest)
    | '"' :: rest => (parseStrAux [] rest).map (fun p => (Json.str p.1, p.2))
    | 'n' :: 'u' :: 'l' :: 'l' :: rest => some (Json.null, rest)
    | 't' :: 'r' :: 'u' :: 'e' :: rest => some (Json.bool true, rest)
    | 'f' :: 'a' :: 'l' :: 's' :: 'e' :: rest => some (Json.bool false, rest)
    | rest => parseNumChars rest

def parseObjBody : Nat → List Char → Option (Json × List Char)
  | 0, _ => none
  | f + 1, cs =>
    match cs with
    | '\x7d' :: rest => some (Json.obj [], rest)
    | _ => parseObjEntries f cs []

def parseObjEntries : Nat → List Char → List (String × Json) → Option (Json × List Char)
  | 0, _, _ => none
  | f + 1, cs, acc =>
    match skipWs cs with
    | '"' :: rest =>
      match parseStrAux [] rest with
      | none => none
      | some (key, r1) =>
        match skipWs r1 with
        | ':' :: r2 =>
          match parseV f r2 with
          | none => none
          | some (v, r3) =>
            match skipWs r3 with
            | ',' :: r4 => parseObjEntries f r4 (acc ++ [(key, v)])
            | '\x7d' :: r4 => some (Json.obj (acc ++ [(key, v)]), r4)
            | _ => none
        | _ => none
    | _ => none

def parseArrBody : Nat → List Char → Option (Json × List Char)
  | 0, _ => none
  | f + 1, cs =>
    match cs with
    | ']' :: rest => some (Json.arr [], rest)
    | _ => parseArrEntries f cs []

def parseArrEntries : Nat → List Char → List Json → Option (Json × List Char)
  | 0, _, _ => none
  | f + 1, cs, acc =>
    match parseV f cs with
    | none => none
    | some (v, r1) =>
      match skipWs r1 with
      | ',' :: r2 => parseArrEntries f r2 (acc ++ [v])
      | ']' :: r2 => some (Json.arr (acc ++ [v]), r2)
      | _ => none

end

/-- `json.loads`: parse a complete JSON document (whole input consumed). -/
def jsonParse (s : String) : Option Json :=
  match parseV (2 * s.length + 2) s.toList with
  | some (j, rest) => if (skipWs rest).isEmpty then some j else none
  | none => none

/-! ## DataFrame construction from structured data -/

def jsonIsObj : Json → Bool
  | .obj _ => true
  | _ => false

def jsonIsArr : Json → Bool
  | .arr _ => true
  | _ => false

def objKeys : Json → List String
  | .obj kvs => kvs.map (·.1)
  | _ => []

def objLookup (kvs : List (String × Json)) (k : String) : Option Json :=
  (kvs.find? (fun kv => kv.1 == k)).map (·.2)

/-- A JSON leaf placed into a DataFrame cell (`None` becomes NaN, nested
structures stay as objects in an object column). -/
def cellOfJson : Json → CellValue
  | .null => .missing
  | .bool b => .bool b
  | .num q => .num q
  | .str s => .str s
  | .arr xs => .nested (.arr xs)
  | .obj kvs => .nested (.obj kvs)

/-- `pd.DataFrame(rows)` for a Python list: a list of dicts becomes records
(columns = keys in first-appearance order, absent keys = NaN); a list of lists
becomes a positional grid padded with NaN; a list of scalars becomes one
column named "0"; a mixed list raises (`none`). -/
def dfOfRecords (rows : List Json) : Option Dataset :=
  if rows.isEmpty then some ⟨0, []⟩
  else if rows.all jsonIsObj then
    let keys := dedupBy (fun a b : String => a == b) ((rows.map objKeys).foldr (· ++ ·) [])
    some ⟨rows.length, keys.map (fun k =>
      (k, rows.map (fun r =>
        match r with
        | .obj kvs =>
          match objLookup kvs k with
          | some v => cellOfJson v
          | none => .missing
        | _ => .missing)))⟩
  else if rows.all jsonIsArr then
    let width := (rows.map (fun r =>
      match r with
      | .arr xs => xs.length
      | _ => 0)).foldr Nat.max 0
    some ⟨rows.length, (List.range width).map (fun i =>
      (toString i, rows.map (fun r =>
        match r with
        | .arr xs =>
          match xs.get? i with
          | some v => cellOfJson v
          | none => .missing
        | _ => .missing)))⟩
  else if rows.all (fun r => !jsonIsObj r && !jsonIsArr r) then
    some ⟨rows.length, [("0", rows.map cellOfJson)]⟩
  else none

/-- First list-typed value among a mapping's entries (insertion order). -/
def firstListValue : List (String × Json) → Option (List Json)
  | [] => none
  | (_, .arr xs) :: _ => some xs
  | _ :: rest => firstListValue rest

/-- The record-discovery rule used by the inline-structured, local `.json` and
remote-json branches: a sequence of records becomes rows; a single mapping is
searched for its first list-typed value, else wrapped as one row; a scalar
makes `pd.DataFrame` raise (`none`). -/
def dfOfJson : Json → Option Dataset
  | .arr rows => dfOfRecords rows
  | .obj kvs =>
    match firstListValue kvs with
    | some rows => dfOfRecords rows
    | none => dfOfRecords [Json.obj kvs]
  | _ => none

/-- `pd.DataFrame(data)` called directly on a parsed document (the unknown
extension / untyped-response fallback): a list is as in `dfOfRecords`; a dict
is interpreted column-wise and requires every value to be a list of one common
length; anything else raises (`none`). -/
def dfOfJsonRaw : Json → Option Dataset
  | .arr rows => dfOfRecords rows
  | .obj kvs =>
    if kvs.all (fun kv => jsonIsArr kv.2) then
      let lens := kvs.map (fun kv =>
        match kv.2 with
        | .arr xs => xs.length
        | _ => 0)
      match lens with
      | [] => some ⟨0, []⟩
      | n :: rest =>
        if rest.all (fun m => m == n) then
          some ⟨n, kvs.map (fun kv =>
            (kv.1, match kv.2 with
              | .arr xs => xs.map cellOfJson
              | _ => []))⟩
        else none
    else none
  | _ => none

/-! ## Python string primitives

Executable character-list implementations of the Python string operations the
source uses (`strip`, `in`, `startswith`, `endswith`, `split`, `lower`).
They are defined from scratch so that every definition in this development
evaluates by kernel reduction on concrete inputs. -/

def isPrefixL : List Char → List Char → Bool
  | [], _ => true
  | _ :: _, [] => false
  | a :: as, b :: bs => a == b && isPrefixL as bs

def splitOnGo (sep : List Char) : Nat → List Char → List Char → List (List Char)
  | 0, s, acc => [acc.reverse ++ s]
  | f + 1, s, acc =>
    match s with
    | [] => [acc.reverse]
    | c :: rest =>
      if isPrefixL sep s then acc.reverse :: splitOnGo sep f (s.drop sep.length) []
      else splitOnGo sep f rest (c :: acc)

/-- Python `s.split(sep)` for a non-empty separator. -/
def pySplit (s sep : String) : List String :=
  (splitOnGo sep.data (s.data.length + 1) s.data []).map String.mk

/-- Python `c in s` for a single character. -/
def pyContainsChar (s : String) (c : Char) : Bool := s.data.any (· == c)

/-- Python `s.startswith(pre)`. -/
def pyStartsWith (s pre : String) : Bool := isPrefixL pre.data s.data

/-- Python `s.endswith(suf)`. -/
def pyEndsWith (s suf : String) : Bool := isPrefixL suf.data.reverse s.data.reverse

def isWsChar (c : Char) : Bool := c = ' ' || c = '\n' || c = '\t' || c = '\r'

/-- Python `s.strip()`. -/
def pyTrim (s : String) : String :=
  String.mk (((s.data.dropWhile isWsChar).reverse.dropWhile isWsChar).reverse)

/-- Python `s.lower()`. -/
def pyLower (s : String) : String := String.mk (s.data.map Char.toLower)

def pyIsEmpty (s : String) : Bool := s.data.isEmpty

/-! ## The CSV parser embedding `pd.read_csv` -/

/-- Numeric literal recognition for CSV fields (sign, digits, optional
fractional part; the whole field must be consumed). -/
def parseQ? (s : String) : Option ℚ :=
  match parseNumChars s.toList with
  | some (Json.num q, []) => some q
  | _ => none

def cellOfCsv (s : String) : CellValue :=
  if pyIsEmpty s then .missing
  else
    match parseQ? s with
    | some q => .num q
    | none => .str s

/-- Per-column dtype inference: all fields empty-or-numeric gives a numeric
column, otherwise an object column keeping the raw strings (empty = NaN). -/
def csvColumn (raw : List String) : List CellValue :=
  if raw.all (fun s => pyIsEmpty s || (parseQ? s).isSome) then raw.map cellOfCsv
  else raw.map (fun s => if pyIsEmpty s then CellValue.missing else .str s)

/-- `pd.read_csv` on in-memory text: first non-blank line is the header,
blank lines are skipped, a row with more fields than the header is a parse
error, a short row is padded with NaN. -/
def csvParse (s : String) : Option Dataset :=
  let lines := ((pySplit s "\n").map (fun l =>
    if pyEndsWith l "\r" then String.mk l.data.dropLast else l)).filter (fun l => !pyIsEmpty l)
  match lines with
  | [] => none
  | header :: body =>
    let names := pySplit header ","
    let grid := body.map (fun l => pySplit l ",")
    if grid.all (fun r => r.length ≤ names.length) then
      some ⟨grid.length, names.enum.map (fun p =>
        (p.2, csvColumn (grid.map (fun r => r.getD p.1 ""))))⟩
    else none

/-! ## Source resolution and loading (DataAnalyzer.load_data and
DataAnalyzer.download_data_from_url) -/

/-- An HTTP response that passed `raise_for_status`. -/
structure WebResponse where
  contentType : String
  body : String

/-- Effect oracles: filesystem existence test, file reading and HTTP fetch.
An `Except.error` models a raised exception (for `fetch` also a non-success
HTTP status, because the code raises on those). -/
structure Ctx where
  isFile : String → Bool
  readFile : String → Except String String
  fetch : String → Except String WebResponse

/-- Python `sub in s` (substring containment, non-empty `sub`). -/
def strContains (s sub : String) : Bool := (pySplit s sub).length != 1

/-- `url.split('/spreadsheets/d/')[1].split('/')[0]`: the document identifier
segment (everything after the marker up to the next slash). -/
def sheetId (url : String) : String :=
  (pySplit ((pySplit url "/spreadsheets/d/").getD 1 "") "/").headD ""

/-- `url.split('gid=')[1].split('&')[0].split('#')[0]` when a `gid=` token is
present, else the default first tab `"0"`. -/
def sheetGid (url : String) : String :=
  if strContains url "gid=" then
    (pySplit ((pySplit ((pySplit url "gid=").getD 1 "") "&").headD "") "#").headD ""
  else "0"

/-- The Google-Sheets link rewrite at the top of `download_data_from_url`.
The `elif '/spreadsheets/' in url` arm of the source runs a regex that
requires the literal `/spreadsheets/d/` — unreachable there because that arm
is only taken when `/spreadsheets/d/` is absent — so it leaves the URL
unchanged. -/
def rewriteSheetUrl (url : String) : String :=
  if strContains url "docs.google.com" && strContains url "/spreadsheets/" then
    if !strContains url "/export?format=csv" then
      if strContains url "/spreadsheets/d/" then
        "https://docs.google.com/spreadsheets/d/" ++ sheetId url
          ++ "/export?format=csv&gid=" ++ sheetGid url
      else url
    else url
  else url

/-- The body of `download_data_from_url` before its catch-all handler:
rewrite, fetch, then dispatch on content type / URL hints. -/
def downloadBody (ctx : Ctx) (url0 : String) : Except String Dataset :=
  let url := rewriteSheetUrl url0
  match ctx.fetch url with
  | .error e => .error e
  | .ok resp =>
    let ct := pyLower resp.contentType
    if strContains ct "csv" || pyEndsWith url ".csv" || strContains url "format=csv" then
      match csvParse resp.body with
      | some df => .ok df
      | none => .error "csv parse error"
    else if strContains ct "json" || pyEndsWith url ".json" then
      match jsonParse resp.body with
      | none => .error "json decode error"
      | some j =>
        match dfOfJson j with
        | some df => .ok df
        | none => .error "dataframe error"
    else
      match csvParse resp.body with
      | some df => .ok df
      | none =>
        match jsonParse resp.body with
        | none => .error "json decode error"
        | some j =>
          match dfOfJsonRaw j with
          | some df => .ok df
          | none => .error "dataframe error"

/-- `download_data_from_url`: any exception in the body is caught and turned
into the `None` failure value. -/
def download_data_from_url (ctx : Ctx) (url : String) : Option Dataset :=
  (downloadBody ctx url).toOption

/-- The `except` arm of the unknown-extension local-file branch: re-open the
file and build a DataFrame from its parsed JSON directly. -/
def fileJsonFallback (ctx : Ctx) (path : String) : Except String Dataset :=
  match ctx.readFile path with
  | .error e => .error e
  | .ok c =>
    match jsonParse c with
    | none => .error "json decode error"
    | some j =>
      match dfOfJsonRaw j with
      | some df => .ok df
      | none => .error "dataframe error"

/-- The local-file branch of `load_data` (dispatch on extension); its
exceptions are not caught locally and propagate to the outer handler. -/
def fileBody (ctx : Ctx) (path : String) : Except String Dataset :=
  if pyEndsWith path ".csv" then
    match ctx.readFile path with
    | .error e => .error e
    | .ok c =>
      match csvParse c with
      | some df => .ok df
      | none => .error "csv parse error"
  else if pyEndsWith path ".json" then
    match ctx.readFile path with
    | .error e => .error e
    | .ok c =>
      match jsonParse c with
      | none => .error "json decode error"
      | some j =>
        match dfOfJson j with
        | some df => .ok df
        | none => .error "dataframe error"
  else
    match ctx.readFile path with
    | .ok c =>
      match csvParse c with
      | some df => .ok df
      | none => fileJsonFallback ctx path
    | .error _ => fileJsonFallback ctx path

/-- The raw-CSV-text sniffing branch: requires a comma, a newline and no
`http` scheme token on the trimmed input; a successful parse is accepted only
with at least one row and more than one column, else the branch falls
through (parse errors are caught locally). -/
def csvGuarded (input : String) : Option Dataset :=
  if pyContainsChar (pyTrim input) ',' && pyContainsChar (pyTrim input) '\n'
      && !pyStartsWith (pyTrim input) "http" then
    match csvParse (pyTrim input) with
    | some df => if decide (0 < df.nrows) && decide (1 < df.cols.length) then some df else none
    | none => none
  else none

/-- The raw-JSON-text sniffing branch: the trimmed input must begin with a
brace or bracket and not with the `http` scheme token; parse and DataFrame
errors are caught locally and the branch falls through. -/
def jsonGuarded (input : String) : Option Dataset :=
  if (pyStartsWith (pyTrim input) "\x7b" || pyStartsWith (pyTrim input) "[")
      && !pyStartsWith (pyTrim input) "http" then
    match jsonParse (pyTrim input) with
    | some j => dfOfJson j
    | none => none
  else none

/-- The classification a given input ends up with, mirroring the fall-through
order of `load_data`: inline delimited text, inline structured text, local
path, then remote locator as the default. -/
inductive LoadOutcome where
  | inlineDelimited (df : Dataset)
  | inlineStructured (df : Dataset)
  | localPath (result : Option Dataset)
  | remote (result : Option Dataset)

/-- `load_data` instrumented with the branch that produced its result. -/
def loadOutcome (ctx : Ctx) (input : String) : LoadOutcome :=
  match csvGuarded input with
  | some df => .inlineDelimited df
  | none =>
    match jsonGuarded input with
    | some df => .inlineStructured df
    | none =>
      if ctx.isFile input then .localPath (fileBody ctx input).toOption
      else .remote (download_data_from_url ctx input)

/-- The body of `load_data` before its outer catch-all handler; only the
local-file branch can raise out of it. -/
def loadBody (ctx : Ctx) (input : String) : Except String (Option Dataset) :=
  match csvGuarded input with
  | some df => .ok (some df)
  | none =>
    match jsonGuarded input with
    | some df => .ok (some df)
    | none =>
      if ctx.isFile input then (fileBody ctx input).map some
      else .ok (download_data_from_url ctx input)

/-- `DataAnalyzer.load_data`: the public loader; every uncaught exception of
the body is converted to the `None` failure value by the outer handler. -/
def load_data (ctx : Ctx) (input : String) : Option Dataset :=
  match loadBody ctx input with
  | .ok r => r
  | .error _ => none

/-- `df.empty`: some axis has length zero. -/
def dfEmpty (df : Dataset) : Bool := df.nrows == 0 || df.cols.isEmpty

/-- The acceptance test of `run_data_analysis_sandbox`
(`if df is None or df.empty: ... return None, None`). -/
def sandboxAccepts : Option Dataset → Bool
  | none => false
  | some df => !dfEmpty df

/-- A branch result that is a non-empty dataset with at least two columns
(the condition the specification's load contract quantifies over). -/
def goodDF : Option Dataset → Bool
  | none => false
  | some df => decide (0 < df.nrows) && decide (2 ≤ df.cols.length)

/-- The local-path branch's result as run (none when the branch is not
taken or its error is swallowed by the outer handler). -/
def fileBranchOpt (ctx : Ctx) (input : String) : Option Dataset :=
  if ctx.isFile input then (fileBody ctx input).toOption else none

/-- The remote branch's result as run (none when the branch is not taken). -/
def remoteBranchOpt (ctx : Ctx) (input : String) : Option Dataset :=
  if ctx.isFile input then none else download_data_from_url ctx input

/-! ## The insight engine (DataAnalyzer.analyze_data) -/

/-- Non-missing values of a column (`Series.dropna`). -/
def dropna (cells : List CellValue) : List CellValue :=
  cells.filter (fun c => !c.isMissingB)

/-- pandas numeric dtype: a non-empty column whose every cell is a number or
missing (an all-missing column is float64, a zero-row column is object). -/
def colIsNumeric : List CellValue → Bool
  | [] => false
  | cells => cells.all (fun c => c.isNumB || c.isMissingB)

/-- pandas bool dtype: a non-empty column of booleans with no missing value. -/
def colIsBoolPure (cells : List CellValue) : Bool :=
  !cells.isEmpty && cells.all CellValue.isBoolB

/-- pandas object/category dtype (the columns the categorical loop visits):
everything that is neither numeric nor pure-bool. -/
def colIsObject (cells : List CellValue) : Bool :=
  !colIsNumeric cells && !colIsBoolPure cells

def numericColsOf (ds : Dataset) : List (String × List CellValue) :=
  ds.cols.filter (fun c => colIsNumeric c.2)

def objectColsOf (ds : Dataset) : List (String × List CellValue) :=
  ds.cols.filter (fun c => colIsObject c.2)

/-- The numeric values of a column after `dropna`. -/
def colVals (cells : List CellValue) : List ℚ :=
  (dropna cells).filterMap CellValue.num?

def meanQ (xs : List ℚ) : ℚ := xs.sum / (xs.length : ℚ)

/-- pandas median: middle element of the sorted values, or the average of the
two middle elements for an even count. -/
def medianQ (xs : List ℚ) : ℚ :=
  let s := sortLe (fun a b => decide (a ≤ b)) xs
  let n := s.length
  if n % 2 = 1 then s.getD (n / 2) 0
  else (s.getD (n / 2 - 1) 0 + s.getD (n / 2) 0) / 2

/-- Sample variance (`ddof=1`), the square of `Series.std()`. -/
def svarQ (xs : List ℚ) : ℚ :=
  (xs.map (fun x => (x - meanQ xs) ^ 2)).sum / ((xs.length : ℚ) - 1)

/-- Population variance (`ddof=0`), the square of a population-style
standard deviation. -/
def pvarQ (xs : List ℚ) : ℚ :=
  (xs.map (fun x => (x - meanQ xs) ^ 2)).sum / (xs.length : ℚ)

/-- The recorded `float(col_data.std())`: NaN (`none`) for fewer than two
values, else the square root of the sample variance, tracked by its radicand
(the square root itself is irrational in general). -/
def stdVarQ (xs : List ℚ) : Option ℚ :=
  if 2 ≤ xs.length then some (svarQ xs) else none

/-- The real value of the recorded standard deviation (NaN mapped to 0 only
for totality; claims only use the `some` case). -/
noncomputable def stdReal : Option ℚ → ℝ
  | some v => Real.sqrt (v : ℝ)
  | none => 0

/-- A population-style standard deviation of a list of values (what the
specification asserts the profile contains). -/
noncomputable def popStd (xs : List ℚ) : ℝ := Real.sqrt ((pvarQ xs : ℚ) : ℝ)

def minQ : List ℚ → ℚ
  | [] => 0
  | x :: r => r.foldl min x

def maxQ : List ℚ → ℚ
  | [] => 0
  | x :: r => r.foldl max x

def m2Q (xs : List ℚ) : ℚ := (xs.map (fun x => (x - meanQ xs) ^ 2)).sum

def m3Q (xs : List ℚ) : ℚ := (xs.map (fun x => (x - meanQ xs) ^ 3)).sum

/-- The recorded `float(col_data.skew())` of the numeric profile: the literal
0 written when at most two values remain, else the adjusted Fisher-Pearson
sample skewness `n * sqrt(n-1) / (n-2) * m3 / m2^1.5` (0 when `m2 = 0`),
tracked by its rational determining data `(n, m2, m3)`. -/
inductive SkewField where
  | zero : SkewField
  | sk (n : Nat) (m2 m3 : ℚ) : SkewField
  deriving DecidableEq

def skewF (xs : List ℚ) : SkewField :=
  if 2 < xs.length then .sk xs.length (m2Q xs) (m3Q xs) else .zero

/-- Scalar cell equality as used by `value_counts` / `nunique` (only reached
when the column holds no nested structures). -/
def cellScalarEq : CellValue → CellValue → Bool
  | .num a, .num b => a == b
  | .str a, .str b => a == b
  | .bool a, .bool b => a == b
  | .missing, .missing => true
  | _, _ => false

/-- `str(k)` for a value-count key. -/
def cellKey : CellValue → String
  | .num q => toString q
  | .str s => s
  | .bool b => toString b
  | .nested _ => "nested"
  | .missing => "nan"

/-- `value_counts()`: distinct values with their frequencies, ordered by
descending frequency with ties in first-encounter order, keys stringified. -/
def valueCountsOf (cells : List CellValue) : List (String × Nat) :=
  let distinct := dedupBy cellScalarEq cells
  let counted := distinct.map (fun v => (cellKey v, cells.countP (fun x => cellScalarEq v x)))
  sortLe (fun a b => decide (b.2 ≤ a.2)) counted

def uniqueCount (cells : List CellValue) : Nat := (dedupBy cellScalarEq cells).length

def topValues (cells : List CellValue) : List (String × Nat) := (valueCountsOf cells).take 5

def mostCommon (cells : List CellValue) : Option String :=
  ((valueCountsOf cells).head?).map (·.1)

/-- One entry of `analysis['insights']`. -/
inductive Insight where
  | numeric (column : String) (mean median : ℚ) (stdVar : Option ℚ)
      (vmin vmax : ℚ) (skewness : SkewField) : Insight
  | categorical (column : String) (uniqueValues : Nat)
      (topValues : List (String × Nat)) (mostCommon : Option String) : Insight
  | complex (column : String) (note : String) (sampleCount : Nat) : Insight
  | overall (totalRows totalColumns totalMissing : Nat)
      (missingPercentage : ℚ) : Insight
  deriving DecidableEq

/-- The column an insight refers to (`none` for the overall summary). -/
def Insight.column? : Insight → Option String
  | .numeric c _ _ _ _ _ _ => some c
  | .categorical c _ _ _ => some c
  | .complex c _ _ => some c
  | .overall _ _ _ _ => none

/-- The numeric-column insight of `analyze_data` (appended only when at
least one non-missing value remains). -/
def mkNumInsight (c : String × List CellValue) : Option Insight :=
  let vals := colVals c.2
  if vals.isEmpty then none
  else some (.numeric c.1 (meanQ vals) (medianQ vals) (stdVarQ vals)
    (minQ vals) (maxQ vals) (skewF vals))

/-- The note recorded when `value_counts` raises on unhashable values (the
source interpolates the exception text; the constant stands for it). -/
def cannotNote : String := "Cannot analyze: unhashable type"

/-- The categorical/complex insight of `analyze_data`: skip an empty column;
a nested first value short-circuits to a Complex profile; a later nested
value makes counting raise, degraded to a Complex profile; otherwise count
uniques and top-5 frequencies. -/
def mkCatInsight (c : String × List CellValue) : Option Insight :=
  match dropna c.2 with
  | [] => none
  | v :: rest =>
    if v.isNestedB then
      some (.complex c.1 "Contains nested data (dict/list)" (v :: rest).length)
    else if (v :: rest).any (fun x => x.isNestedB) then
      some (.complex c.1 cannotNote (v :: rest).length)
    else
      some (.categorical c.1 (uniqueCount (v :: rest)) (topValues (v :: rest))
        (mostCommon (v :: rest)))

def missingCount (cells : List CellValue) : Nat :=
  (cells.filter (fun c => c.isMissingB)).length

/-- `df.isnull().sum().sum()`. -/
def totalMissing (ds : Dataset) : Nat :=
  (ds.cols.map (fun c => missingCount c.2)).sum

/-- The overall summary insight, including the guarded
`total_cells = rows * cols if both positive else 1` denominator. -/
def overallInsight (ds : Dataset) : Insight :=
  let totalCells : Nat :=
    if decide (0 < ds.nrows) && decide (0 < ds.cols.length) then ds.nrows * ds.cols.length else 1
  .overall ds.nrows ds.cols.length (totalMissing ds)
    (if 0 < totalCells then ((totalMissing ds : ℚ) / (totalCells : ℚ)) * 100 else 0)

/-- The analysis record of `analyze_data` (the `describe()` table of
`summary_stats` and the dtype map are omitted: no claim concerns them). -/
structure Analysis where
  shape : Nat × Nat
  columns : List String
  missingValues : List (String × Nat)
  insights : List Insight

/-- `DataAnalyzer.analyze_data`: numeric insights over the numeric columns in
order, then categorical/complex insights over the object columns in order,
then the overall summary. -/
def analyze_data (ds : Dataset) : Analysis :=
  { shape := (ds.nrows, ds.cols.length)
    columns := ds.cols.map (·.1)
    missingValues := ds.cols.map (fun c => (c.1, missingCount c.2))
    insights := (numericColsOf ds).filterMap mkNumInsight
      ++ (objectColsOf ds).filterMap mkCatInsight
      ++ [overallInsight ds] }

/-- The missing percentage of the final overall insight of an analysis. -/
def overallPct (a : Analysis) : Option ℚ :=
  match a.insights.getLast? with
  | some (.overall _ _ _ p) => some p
  | _ => none

/-! ## The bar-chart section of DataAnalyzer.generate_charts -/

/-- The bar charts emitted by `generate_charts` as (file name, column) pairs:
the first three object columns, skipping an all-missing column, a column
whose first non-missing value is a nested structure, and an empty count
result. -/
def barCharts (ds : Dataset) : List (String × String) :=
  ((objectColsOf ds).take 3).enum.filterMap (fun p =>
    match dropna p.2.2 with
    | [] => none
    | v :: rest =>
      if v.isNestedB then none
      else if (valueCountsOf (v :: rest)).take 10 |>.isEmpty then none
      else some ("bar_" ++ toString p.1 ++ ".png", p.2.1))

/-! ## Concrete fixtures and shared helper lemmas -/

/-- Oracles for an environment with no matching local file and a failing
network (every fetch raises or returns a non-success status). -/
def ctxFail : Ctx :=
  { isFile := fun _ => false
    readFile := fun _ => .error "io error"
    fetch := fun _ => .error "fetch failed" }

/-- Oracles for an environment where every path exists but reading raises. -/
def ctxFile : Ctx :=
  { isFile := fun _ => true
    readFile := fun _ => .error "io error"
    fetch := fun _ => .error "net" }

/-- A numeric column bears an insight when values remain after dropna. -/
def numHasData (c : String × List CellValue) : Bool := !(colVals c.2).isEmpty

/-- An object column bears an insight when values remain after dropna. -/
def catHasData (c : String × List CellValue) : Bool := !(dropna c.2).isEmpty

theorem filterMap_guard (p : α → Bool) (g : α → β) (l : List α) :
    l.filterMap (fun a => if p a then some (g a) else none) = (l.filter p).map g := by
  induction l with
  | nil => rfl
  | cons x xs ih =>
    by_cases h : p x <;> simp [List.filterMap_cons, List.filter_cons, h, ih]

theorem mkNum_map_col (c : String × List CellValue) :
    (mkNumInsight c).map Insight.column? = if numHasData c then some (some c.1) else none := by
  by_cases h : (colVals c.2).isEmpty <;>
    simp [mkNumInsight, numHasData, h, Insight.column?]

theorem mkCat_map_col (c : String × List CellValue) :
    (mkCatInsight c).map Insight.column? = if catHasData c then some (some c.1) else none := by
  cases h : dropna c.2 with
  | nil => simp [mkCatInsight, catHasData, h]
  | cons v rest =>
    by_cases h1 : v.isNestedB <;>
      by_cases h2 : (v :: rest).any (fun x => x.isNestedB) <;>
        simp [mkCatInsight, catHasData, h, h1, h2, Insight.column?]

theorem mkNum_col_some {c : String × List CellValue} {i : Insight}
    (hc : mkNumInsight c = some i) : i.column? = some c.1 := by
  have h := mkNum_map_col c
  rw [hc] at h
  by_cases hp : numHasData c
  · rw [if_pos hp] at h
    simpa using h
  · rw [if_neg hp] at h
    simp at h

theorem mkCat_col_some {c : String × List CellValue} {i : Insight}
    (hc : mkCatInsight c = some i) : i.column? = some c.1 := by
  have h := mkCat_map_col c
  rw [hc] at h
  by_cases hp : catHasData c
  · rw [if_pos hp] at h
    simpa using h
  · rw [if_neg hp] at h
    simp at h

theorem analyze_insights_getLast (ds : Dataset) :
    (analyze_data ds).insights.getLast? = some (overallInsight ds) := by
  unfold analyze_data
  dsimp only
  rw [List.getLast?_concat]

theorem keyUnique {β : Type _} {l : List (String × β)} {k : String} {b1 b2 : β}
    (hnd : (l.map Prod.fst).Nodup) (h1 : (k, b1) ∈ l) (h2 : (k, b2) ∈ l) : b1 = b2 := by
  induction l with
  | nil => cases h1
  | cons x xs ih =>
    rw [List.map_cons, List.nodup_cons] at hnd
    obtain ⟨hx, hnd2⟩ := hnd
    rcases List.mem_cons.mp h1 with e1 | m1 <;> rcases List.mem_cons.mp h2 with e2 | m2
    · exact congrArg Prod.snd (e1.trans e2.symm)
    · exact absurd (by rw [← e1]; simpa using List.mem_map_of_mem Prod.fst m2) hx
    · exact absurd (by rw [← e2]; simpa using List.mem_map_of_mem Prod.fst m1) hx
    · exact ih hnd2 m1 m2

theorem totalMissing_zero_of (ds : Dataset)
    (hwf : ∀ c ∈ ds.cols, c.2.length = ds.nrows)
    (h : ds.nrows = 0 ∨ ds.cols.length = 0) : totalMissing ds = 0 := by
  rcases h with h | h
  · apply List.sum_eq_zero
    intro x hx
    obtain ⟨c, hc, rfl⟩ := List.mem_map.mp hx
    have hlen := hwf c hc
    have hle : missingCount c.2 ≤ c.2.length := List.length_filter_le _ _
    omega
  · have hnil : ds.cols = [] := List.length_eq_zero.mp h
    unfold totalMissing
    rw [hnil]
    rfl

theorem dropna_all_obj {cells : List CellValue} (h : cells.all CellValue.isObjB = true) :
    dropna cells = cells := by
  apply List.filter_eq_self.mpr
  intro v hv
  have hobj := (List.all_eq_true.mp h) v hv
  cases v <;> simp_all [CellValue.isObjB, CellValue.isMissingB]

theorem colIsObject_of_all_obj {v : CellValue} {rest : List CellValue}
    (h : (v :: rest).all CellValue.isObjB = true) : colIsObject (v :: rest) = true := by
  have hv := (List.all_eq_true.mp h) v (List.mem_cons_self ..)
  cases v with
  | nested j =>
    cases j <;> simp_all [CellValue.isObjB, colIsObject, colIsNumeric, colIsBoolPure,
      CellValue.isNumB, CellValue.isMissingB, CellValue.isBoolB]
  | num q => simp [CellValue.isObjB] at hv
  | str s => simp [CellValue.isObjB] at hv
  | bool b => simp [CellValue.isObjB] at hv
  | missing => simp [CellValue.isObjB] at hv

/-! ## Claim C1: insight ordering -/

/-- Fixture for C1: a categorical column appearing before a numeric column. -/
def dsC1 : Dataset := ⟨1, [("name", [CellValue.str "x"]), ("val", [CellValue.num 1])]⟩

/-- C1, counterexample to the claim as stated: the claim says the numeric and
categorical/complex insights interleave in column order as encountered, i.e.
that the non-overall insight columns follow the dataset's column order.  On a
dataset whose first column is categorical ("name") and second numeric
("val"), `analyze_data` emits the numeric insight first, so the insight
column sequence is ["val", "name"], not the column-order sequence
["name", "val"]. -/
theorem insight_order_counterexample :
    (analyze_data dsC1).insights.map Insight.column? = [some "val", some "name", none]
  ∧ (analyze_data dsC1).insights.map Insight.column? ≠
      (dsC1.cols.filter (fun c =>
        (colIsNumeric c.2 && numHasData c) || (colIsObject c.2 && catHasData c))).map
          (fun c => some c.1) ++ [none] := by
  constructor
  · decide
  · decide

/-- C1, amended: the insights of `analyze_data` are grouped, not interleaved:
first the numeric insights (over the numeric columns in dataset order), then
the categorical/complex insights (over the object columns in dataset order),
and the OverallSummary insight is always last (and is the only insight
without a column). -/
theorem insight_order_grouped (ds : Dataset) :
    ((analyze_data ds).insights.map Insight.column? =
      ((numericColsOf ds).filter numHasData).map (fun c => some c.1)
        ++ ((objectColsOf ds).filter catHasData).map (fun c => some c.1)
        ++ [none])
  ∧ (analyze_data ds).insights.getLast? = some (overallInsight ds)
  ∧ ∀ i ∈ (analyze_data ds).insights.dropLast, (Insight.column? i).isSome = true := by
  refine ⟨?_, analyze_insights_getLast ds, ?_⟩
  · unfold analyze_data
    dsimp only
    rw [List.map_append, List.map_append, List.map_filterMap, List.map_filterMap]
    simp only [mkNum_map_col, mkCat_map_col]
    rw [filterMap_guard, filterMap_guard]
    simp [overallInsight, Insight.column?]
  · intro i hi
    unfold analyze_data at hi
    dsimp only at hi
    rw [List.dropLast_concat] at hi
    rcases List.mem_append.mp hi with h | h
    · obtain ⟨c, -, hmk⟩ := List.mem_filterMap.mp h
      rw [mkNum_col_some hmk]
      rfl
    · obtain ⟨c, -, hmk⟩ := List.mem_filterMap.mp h
      rw [mkCat_col_some hmk]
      rfl

/-! ## Claim C3: the overall missing percentage -/

/-- C3: the OverallSummary insight's missing percentage equals
`total missing / (row count * column count) * 100` when both dimensions are
positive, and is 0 whenever the row count or the column count is 0 (the
guarded denominator is 1 there and no cell can be missing). -/
theorem overall_missing_percentage (ds : Dataset)
    (hwf : ∀ c ∈ ds.cols, c.2.length = ds.nrows) :
    ((ds.nrows = 0 ∨ ds.cols.length = 0) → overallPct (analyze_data ds) = some 0)
  ∧ (0 < ds.nrows → 0 < ds.cols.length →
      overallPct (analyze_data ds) = some
        (((totalMissing ds : ℚ) / ((ds.nrows : ℚ) * (ds.cols.length : ℚ))) * 100)) := by
  constructor
  · intro h
    have hm := totalMissing_zero_of ds hwf h
    have hcond : (decide (0 < ds.nrows) && decide (0 < ds.cols.length)) = false := by
      rcases h with h | h <;> simp [h]
    unfold overallPct
    rw [analyze_insights_getLast]
    simp [overallInsight, hcond, hm]
  · intro hr hc
    have hcond : (decide (0 < ds.nrows) && decide (0 < ds.cols.length)) = true := by
      simp [hr, hc]
    unfold overallPct
    rw [analyze_insights_getLast]
    simp only [overallInsight, hcond, if_true]
    rw [if_pos (Nat.mul_pos hr hc)]
    push_cast
    ring_nf

/-- Fixture for the C3 witness: a 2-by-2 dataset with one missing cell. -/
def dsMiss : Dataset :=
  ⟨2, [("a", [CellValue.num 1, CellValue.missing]),
       ("b", [CellValue.str "u", CellValue.str "v"])]⟩

/-- C3 witness at a concrete dataset: one missing cell out of four gives a
25 percent missing rate. -/
theorem overall_missing_percentage_witness :
    overallPct (analyze_data dsMiss) = some 25 := by
  have h := (overall_missing_percentage dsMiss (by decide)).2 (by decide) (by decide)
  rw [h]
  norm_num [show totalMissing dsMiss = 1 from rfl, show dsMiss.nrows = 2 from rfl,
    show dsMiss.cols.length = 2 from rfl]

/-! ## Claim C10: totality of the public loading interface -/

/-- C10: loading is total at the public interface: every exception of the
loader body (including file-system errors of the local branch) is converted
by the outer handler to the `None` failure value, the remote-fetch branch
converts its own exceptions (failed or non-success fetches, malformed
responses) to `None` as well, and `load_data` always returns either a
dataset or `None`. -/
theorem load_total_interface :
    (∀ (ctx : Ctx) (input e : String),
        loadBody ctx input = .error e → load_data ctx input = none)
  ∧ (∀ (ctx : Ctx) (input : String) (r : Option Dataset),
        loadBody ctx input = .ok r → load_data ctx input = r)
  ∧ (∀ (ctx : Ctx) (url e : String),
        downloadBody ctx url = .error e → download_data_from_url ctx url = none)
  ∧ (∀ (ctx : Ctx) (input : String),
        load_data ctx input = none ∨ ∃ df, load_data ctx input = some df) := by
  refine ⟨?_, ?_, ?_, ?_⟩
  · intro ctx input e h
    unfold load_data
    rw [h]
  · intro ctx input r h
    unfold load_data
    rw [h]
  · intro ctx url e h
    unfold download_data_from_url
    rw [h]
    rfl
  · intro ctx input
    cases h : load_data ctx input with
    | none => exact Or.inl rfl
    | some df => exact Or.inr ⟨df, rfl⟩

/-- C10 witness: an existing `.csv` path whose read raises is converted to
the `None` failure value (the body raises, the public interface does not). -/
theorem load_total_interface_witness :
    load_data ctxFile "data.csv" = none :=
  load_total_interface.1 ctxFile "data.csv" "io error" (by rfl)

/-! ## Claim C2: the load-failure contract -/

/-- Fixture for C2: structured text yielding a 2-row, 1-column dataset, with
no branch able to produce a dataset of 2 or more columns. -/
def inpOneCol : String := "[\x7b\"a\":1\x7d,\x7b\"a\":2\x7d]"

/-- C2, counterexample to the claim as stated: the claim says loading fails
exactly when no branch yields a non-empty dataset with at least 2 columns.
On the structured input `[{"a":1},{"a":2}]` (written with escaped braces) no
branch yields a 2-or-more-column dataset, yet the load is accepted: the
2-or-more-column requirement applies only to the delimited-text branch. -/
theorem load_accept_one_column_counterexample :
    sandboxAccepts (load_data ctxFail inpOneCol) = true
  ∧ goodDF (csvGuarded inpOneCol) = false
  ∧ goodDF (jsonGuarded inpOneCol) = false
  ∧ goodDF (fileBranchOpt ctxFail inpOneCol) = false
  ∧ goodDF (remoteBranchOpt ctxFail inpOneCol) = false :=
  ⟨by rfl, by rfl, by rfl, by rfl, by rfl⟩

/-- C2, amended: loading fails (returns the `None` failure value) exactly
when every branch, as run in the fall-through order, yields nothing; the
at-least-2-columns requirement applies only to the inline delimited-text
branch; and the sandbox accepts a loaded dataset exactly when it has at
least one row and at least one column (so a 0-row dataset is rejected as a
load failure, as the claim states). -/
theorem load_failure_characterization (ctx : Ctx) (input : String) :
    (load_data ctx input = none ↔
      csvGuarded input = none ∧ jsonGuarded input = none ∧
        fileBranchOpt ctx input = none ∧ remoteBranchOpt ctx input = none)
  ∧ (∀ df, csvGuarded input = some df → 0 < df.nrows ∧ 1 < df.cols.length)
  ∧ (sandboxAccepts (load_data ctx input) = true ↔
      ∃ df, load_data ctx input = some df ∧ 0 < df.nrows ∧ 0 < df.cols.length) := by
  refine ⟨?_, ?_, ?_⟩
  · unfold load_data loadBody fileBranchOpt remoteBranchOpt
    cases h1 : csvGuarded input with
    | some df => simp
    | none =>
      cases h2 : jsonGuarded input with
      | some df => simp
      | none =>
        by_cases hf : ctx.isFile input
        · cases h3 : fileBody ctx input with
          | error e => simp [hf, h3, Except.toOption, Except.map]
          | ok df => simp [hf, h3, Except.toOption, Except.map]
        · cases h4 : download_data_from_url ctx input with
          | none => simp [hf, h4]
          | some df => simp [hf, h4]
  · intro df h
    unfold csvGuarded at h
    by_cases hcond : (pyContainsChar (pyTrim input) ',' && pyContainsChar (pyTrim input) '\n'
        && !pyStartsWith (pyTrim input) "http") = true
    · rw [if_pos hcond] at h
      cases hp : csvParse (pyTrim input) with
      | none =>
        simp only [hp] at h
        cases h
      | some df' =>
        simp only [hp] at h
        by_cases hsh : (decide (0 < df'.nrows) && decide (1 < df'.cols.length)) = true
        · rw [if_pos hsh] at h
          cases h
          simpa using hsh
        · rw [if_neg hsh] at h
          cases h
    · rw [if_neg hcond] at h
      cases h
  · cases h : load_data ctx input with
    | none => simp [sandboxAccepts, h]
    | some df =>
      simp [sandboxAccepts, h, dfEmpty, Nat.pos_iff_ne_zero, List.isEmpty_iff,
        List.length_pos, not_or]

/-- C2 witness for the amended characterization: an input that no branch can
load is reported as the `None` failure. -/
theorem load_failure_characterization_witness :
    load_data ctxFail "nodata" = none :=
  (load_failure_characterization ctxFail "nodata").1.mpr ⟨by rfl, by rfl, by rfl, by rfl⟩

/-! ## Claim C4: the numeric column profile -/

/-- Fixture for C4: one numeric column holding the values 0 and 2. -/
def ds4 : Dataset := ⟨2, [("x", [CellValue.num 0, CellValue.num 2])]⟩

/-- The recorded standard-deviation field (by its variance radicand) of the
first numeric insight carried by a given column. -/
def numStdOf (a : Analysis) (col : String) : Option (Option ℚ) :=
  (a.insights.filterMap (fun i =>
    match i with
    | .numeric c _ _ sv _ _ _ => if c = col then some sv else none
    | _ => none)).head?

/-- C4, counterexample to the claim as stated: the claim says the profile
contains a population-style standard deviation.  For the column [0, 2] the
profile records `Series.std()`, the square root of the sample variance
(ddof = 1), which is `sqrt 2`; the population-style standard deviation is
`sqrt 1 = 1`, and the two differ. -/
theorem numeric_std_population_counterexample :
    numStdOf (analyze_data ds4) "x" = some (some (svarQ [0, 2]))
  ∧ svarQ [0, 2] = 2 ∧ pvarQ [0, 2] = 1
  ∧ stdReal (some (svarQ [0, 2])) ≠ popStd [0, 2] := by
  refine ⟨by rfl, by norm_num [svarQ, meanQ], by norm_num [pvarQ, meanQ], ?_⟩
  unfold stdReal popStd
  rw [show svarQ [0, 2] = 2 by norm_num [svarQ, meanQ],
    show pvarQ [0, 2] = 1 by norm_num [pvarQ, meanQ]]
  show Real.sqrt ((2 : ℚ) : ℝ) ≠ Real.sqrt ((1 : ℚ) : ℝ)
  rw [show ((1 : ℚ) : ℝ) = 1 by norm_num, Real.sqrt_one,
    show ((2 : ℚ) : ℝ) = 2 by norm_num]
  intro heq
  have h := Real.sq_sqrt (by norm_num : (0 : ℝ) ≤ 2)
  rw [heq] at h
  norm_num at h

/-- C4, amended: for every numeric column with at least one non-missing
value, `analyze_data` emits a numeric insight containing the mean, median,
min and max of the non-missing values, the sample standard deviation
(ddof = 1, recorded by its variance radicand; NaN, i.e. `none`, for a single
value), and a skewness computed (as the adjusted sample skewness, recorded by
its moments) only when more than 2 values remain and 0 otherwise. -/
theorem numeric_profile_fields (ds : Dataset) (name : String) (cells : List CellValue)
    (hmem : (name, cells) ∈ ds.cols) (hnum : colIsNumeric cells = true)
    (hne : colVals cells ≠ []) :
    Insight.numeric name (meanQ (colVals cells)) (medianQ (colVals cells))
        (if 2 ≤ (colVals cells).length then some (svarQ (colVals cells)) else none)
        (minQ (colVals cells)) (maxQ (colVals cells))
        (if 2 < (colVals cells).length then
          SkewField.sk (colVals cells).length (m2Q (colVals cells)) (m3Q (colVals cells))
        else .zero)
      ∈ (analyze_data ds).insights := by
  have hm : (name, cells) ∈ numericColsOf ds := List.mem_filter.mpr ⟨hmem, hnum⟩
  have hb : (colVals cells).isEmpty = false := by
    cases hv : colVals cells with
    | nil => exact absurd hv hne
    | cons a l => rfl
  have hmk : mkNumInsight (name, cells) =
      some (.numeric name (meanQ (colVals cells)) (medianQ (colVals cells))
        (if 2 ≤ (colVals cells).length then some (svarQ (colVals cells)) else none)
        (minQ (colVals cells)) (maxQ (colVals cells))
        (if 2 < (colVals cells).length then
          SkewField.sk (colVals cells).length (m2Q (colVals cells)) (m3Q (colVals cells))
        else .zero)) := by
    simp [mkNumInsight, hb, stdVarQ, skewF]
  refine List.mem_append.mpr (Or.inl (List.mem_append.mpr (Or.inl ?_)))
  exact List.mem_filterMap.mpr ⟨(name, cells), hm, hmk⟩

/-- C4 witness: the amended profile statement applied to the concrete column
[0, 2] of `ds4`. -/
theorem numeric_profile_fields_witness :
    Insight.numeric "x" (meanQ (colVals [CellValue.num 0, CellValue.num 2]))
        (medianQ (colVals [CellValue.num 0, CellValue.num 2]))
        (if 2 ≤ (colVals [CellValue.num 0, CellValue.num 2]).length
          then some (svarQ (colVals [CellValue.num 0, CellValue.num 2])) else none)
        (minQ (colVals [CellValue.num 0, CellValue.num 2]))
        (maxQ (colVals [CellValue.num 0, CellValue.num 2]))
        (if 2 < (colVals [CellValue.num 0, CellValue.num 2]).length then
          SkewField.sk (colVals [CellValue.num 0, CellValue.num 2]).length
            (m2Q (colVals [CellValue.num 0, CellValue.num 2]))
            (m3Q (colVals [CellValue.num 0, CellValue.num 2]))
        else .zero)
      ∈ (analyze_data ds4).insights :=
  numeric_profile_fields ds4 "x" [CellValue.num 0, CellValue.num 2]
    (List.mem_singleton.mpr rfl) rfl (by simp [colVals, dropna, CellValue.isMissingB,
      CellValue.num?, List.filterMap])

/-! ## Claim C5: inputs that look like structured text -/

/-- Fixture for C5: text beginning with a brace that fails structured
parsing. -/
def inpBadJson : String := "\x7bnot json"

/-- C5, counterexample to the claim as stated: the claim says an input whose
trimmed text begins with a brace (and not with a URL scheme token) is
classified InlineStructured regardless of whether structured parsing
succeeds, and that no remote fetch is attempted.  On `{not json` (written
with an escaped brace) parsing fails, the branch falls through, and the
loader ends in the remote branch, invoking the fetch (which fails here). -/
theorem structured_fallthrough_counterexample :
    pyStartsWith (pyTrim inpBadJson) "\x7b" = true
  ∧ pyStartsWith (pyTrim inpBadJson) "http" = false
  ∧ jsonParse (pyTrim inpBadJson) = none
  ∧ loadOutcome ctxFail inpBadJson = .remote none :=
  ⟨by rfl, by rfl, by rfl, by rfl⟩

/-- C5, amended: an input whose trimmed text begins with a brace or bracket
and not with the `http` token is classified InlineStructured provided the
delimited-text branch did not already accept it and structured parsing plus
dataset construction succeed; when they fail, the input falls through to the
local-path or remote branch (so a remote fetch may be attempted). -/
theorem structured_classification (ctx : Ctx) (input : String) :
    (∀ df, csvGuarded input = none → jsonGuarded input = some df →
        loadOutcome ctx input = .inlineStructured df ∧ load_data ctx input = some df)
  ∧ (csvGuarded input = none → jsonGuarded input = none →
      (∃ r, ctx.isFile input = true ∧ loadOutcome ctx input = .localPath r)
      ∨ (∃ r, ctx.isFile input = false ∧ loadOutcome ctx input = .remote r)) := by
  constructor
  · intro df h1 h2
    constructor
    · unfold loadOutcome
      simp only [h1, h2]
    · unfold load_data loadBody
      simp only [h1, h2]
  · intro h1 h2
    by_cases hf : ctx.isFile input
    · refine Or.inl ⟨(fileBody ctx input).toOption, hf, ?_⟩
      unfold loadOutcome
      simp [h1, h2, hf]
    · refine Or.inr ⟨download_data_from_url ctx input, by simp [hf], ?_⟩
      unfold loadOutcome
      simp [h1, h2, hf]

/-- C5 witness: a parseable bracketed input is classified InlineStructured. -/
theorem structured_classification_witness :
    ∃ df, loadOutcome ctxFail "[\x7b\"a\":1\x7d]" = .inlineStructured df :=
  ⟨_, ((structured_classification ctxFail "[\x7b\"a\":1\x7d]").1 _ (by rfl) (by rfl)).1⟩

/-! ## Claim C6: inline delimited text -/

/-- C6: inline text with a comma and a newline, not starting with the `http`
token, whose delimited parse yields at least 1 row and at least 2 columns,
is classified InlineDelimited (never RemoteLocator) and the loaded dataset
is exactly that parse result. -/
theorem delimited_classification (ctx : Ctx) (input : String) (df : Dataset)
    (hc : pyContainsChar (pyTrim input) ',' = true)
    (hn : pyContainsChar (pyTrim input) '\n' = true)
    (hh : pyStartsWith (pyTrim input) "http" = false)
    (hp : csvParse (pyTrim input) = some df)
    (hr : 0 < df.nrows) (hcol : 1 < df.cols.length) :
    loadOutcome ctx input = .inlineDelimited df ∧ load_data ctx input = some df := by
  have hg : csvGuarded input = some df := by
    unfold csvGuarded
    rw [hc, hn, hh, hp]
    simp [hr, hcol]
  constructor
  · unfold loadOutcome
    simp only [hg]
  · unfold load_data loadBody
    simp only [hg]

/-- Fixture for C6: the specification's delimited-text scenario. -/
def scenarioCsv : String := "Product,Sales\nLaptop,1500\nPhone,2000\n"

/-- C6 witness: the scenario input is classified InlineDelimited and loads a
2-row dataset with columns Product and Sales. -/
theorem delimited_classification_witness :
    ∃ df, loadOutcome ctxFail scenarioCsv = .inlineDelimited df
      ∧ df.nrows = 2 ∧ df.cols.map (·.1) = ["Product", "Sales"] := by
  obtain ⟨h1, -⟩ := delimited_classification ctxFail scenarioCsv
    ((csvParse (pyTrim scenarioCsv)).getD ⟨0, []⟩)
    (by rfl) (by rfl) (by rfl) (by rfl) (by decide) (by decide)
  exact ⟨_, h1, by rfl, by rfl⟩

/-! ## Claim C7: the spreadsheet-link rewrite -/

/-- Fixture for C7: a sharing link already in export form carrying an extra
query parameter. -/
def urlExportX : String := "https://docs.google.com/spreadsheets/d/ABC/export?format=csv&foo=1"

/-- C7, counterexample to the claim as stated: the claim says every remote
locator on the sharing host whose path contains a document-identifier
segment is rewritten to the direct CSV-export endpoint with all other query
parameters discarded and the tab defaulted.  A URL already containing
`/export?format=csv` is fetched unchanged: its extra parameter `foo=1` is
kept and no `gid` default is added. -/
theorem sheet_rewrite_counterexample :
    rewriteSheetUrl urlExportX = urlExportX
  ∧ strContains urlExportX "foo=1" = true
  ∧ urlExportX ≠ "https://docs.google.com/spreadsheets/d/" ++ sheetId urlExportX
      ++ "/export?format=csv&gid=" ++ sheetGid urlExportX :=
  ⟨by rfl, by rfl, by decide⟩

/-- C7, amended: when the URL mentions the sharing host, contains a
`/spreadsheets/d/` document-identifier marker and is not already in export
form, the fetch URL is rewritten to the canonical CSV-export endpoint whose
only query parameters are `format=csv` and the sheet identifier `gid` —
taken from the first `gid=` occurrence of the original URL when present and
defaulted to the first tab `0` otherwise.  The document identifier is the
segment following the marker up to the next slash (it can capture query or
fragment text when the identifier is not slash-terminated); URLs already in
export form are left unchanged. -/
theorem sheet_rewrite_canonical (url : String)
    (h1 : strContains url "docs.google.com" = true)
    (h2 : strContains url "/spreadsheets/" = true)
    (h3 : strContains url "/export?format=csv" = false)
    (h4 : strContains url "/spreadsheets/d/" = true) :
    rewriteSheetUrl url =
      "https://docs.google.com/spreadsheets/d/" ++ sheetId url
        ++ "/export?format=csv&gid=" ++ sheetGid url
  ∧ (strContains url "gid=" = false → sheetGid url = "0") := by
  constructor
  · unfold rewriteSheetUrl
    rw [h1, h2, h3, h4]
    simp
  · intro h
    unfold sheetGid
    rw [h]
    simp

/-- Fixture for the C7 witness: an ordinary edit link with a gid. -/
def urlEdit : String := "https://docs.google.com/spreadsheets/d/ABC123/edit?usp=sharing&gid=77"

/-- C7 witness: a concrete edit link is rewritten to the export endpoint,
preserving its gid and discarding the other query parameter. -/
theorem sheet_rewrite_canonical_witness :
    rewriteSheetUrl urlEdit =
      "https://docs.google.com/spreadsheets/d/ABC123/export?format=csv&gid=77" := by
  have h := (sheet_rewrite_canonical urlEdit (by rfl) (by rfl) (by rfl) (by rfl)).1
  rw [h]
  decide

/-! ## Claim C8: record discovery in a single mapping -/

/-- Fixture for C8: the specification's structured scenario (braces written
escaped). -/
def c8input : String := "\x7b\"rows\":[\x7b\"a\":1\x7d,\x7b\"a\":2\x7d],\"meta\":\"x\"\x7d"

/-- C8: a structured input that is a single mapping uses the first
sequence-typed value among its entries as the rows, wrapping the whole
mapping as one row when no such value exists; the scenario input with a
`rows` list and a `meta` string loads as a 2-row, 1-column dataset. -/
theorem dict_first_list_rule :
    (∀ (kvs : List (String × Json)) (rows : List Json),
        firstListValue kvs = some rows → dfOfJson (Json.obj kvs) = dfOfRecords rows)
  ∧ (∀ kvs : List (String × Json), firstListValue kvs = none →
        dfOfJson (Json.obj kvs) = dfOfRecords [Json.obj kvs])
  ∧ (load_data ctxFail c8input).map (fun df => (df.nrows, df.cols.map (·.1)))
      = some (2, ["a"]) := by
  refine ⟨?_, ?_, by rfl⟩
  · intro kvs rows h
    simp [dfOfJson, h]
  · intro kvs h
    simp [dfOfJson, h]

/-- C8 witness: the first-list rule applied to a mapping with no
sequence-typed value wraps the mapping as a single row. -/
theorem dict_first_list_rule_witness :
    dfOfJson (Json.obj [("meta", Json.str "x")])
      = dfOfRecords [Json.obj [("meta", Json.str "x")]] :=
  dict_first_list_rule.2.1 _ (by rfl)

/-! ## Claim C9: columns of nested mappings -/

theorem isNestedB_of_isObjB {v : CellValue} (h : v.isObjB = true) : v.isNestedB = true := by
  cases v <;> simp_all [CellValue.isObjB, CellValue.isNestedB]

/-- C9: for a dataset with unique column names, a (non-empty) column whose
every value is a nested mapping receives a Complex profile with the
explanatory note and the sample count, never a Categorical profile (no
uniqueness/frequency counting), and the Chart Synthesizer emits no bar chart
for that column. -/
theorem nested_column_complex (ds : Dataset) (name : String) (cells : List CellValue)
    (hnodup : (ds.cols.map Prod.fst).Nodup)
    (hmem : (name, cells) ∈ ds.cols)
    (hne : cells ≠ [])
    (hobj : cells.all CellValue.isObjB = true) :
    Insight.complex name "Contains nested data (dict/list)" cells.length
        ∈ (analyze_data ds).insights
  ∧ (∀ u tv mc, Insight.categorical name u tv mc ∉ (analyze_data ds).insights)
  ∧ name ∉ (barCharts ds).map (·.2) := by
  obtain ⟨v, rest, rfl⟩ : ∃ v rest, cells = v :: rest := by
    cases cells with
    | nil => exact absurd rfl hne
    | cons v rest => exact ⟨v, rest, rfl⟩
  have hco : colIsObject (v :: rest) = true := colIsObject_of_all_obj hobj
  have hd : dropna (v :: rest) = v :: rest := dropna_all_obj hobj
  have hv : v.isNestedB = true :=
    isNestedB_of_isObjB ((List.all_eq_true.mp hobj) v (List.mem_cons_self ..))
  have hmk : mkCatInsight (name, v :: rest) =
      some (.complex name "Contains nested data (dict/list)" (v :: rest).length) := by
    simp [mkCatInsight, hd, hv]
  refine ⟨?_, ?_, ?_⟩
  · refine List.mem_append.mpr (Or.inl (List.mem_append.mpr (Or.inr ?_)))
    exact List.mem_filterMap.mpr ⟨(name, v :: rest), List.mem_filter.mpr ⟨hmem, hco⟩, hmk⟩
  · intro u tv mc hmemC
    rcases List.mem_append.mp hmemC with hAB | hov
    · rcases List.mem_append.mp hAB with hA | hB
      · obtain ⟨c, -, hmk2⟩ := List.mem_filterMap.mp hA
        by_cases hb : (colVals c.2).isEmpty <;> simp [mkNumInsight, hb] at hmk2
      · obtain ⟨c, hcmem, hmk2⟩ := List.mem_filterMap.mp hB
        obtain ⟨c1, c2⟩ := c
        have hc1 : c1 = name := by
          have h' := mkCat_col_some hmk2
          simpa [Insight.column?] using h'.symm
        have hcds : (c1, c2) ∈ ds.cols := (List.mem_filter.mp hcmem).1
        rw [hc1] at hcds
        have hc2 : c2 = v :: rest := keyUnique hnodup hcds hmem
        rw [show ((c1, c2) : String × List CellValue) = (name, v :: rest) by
          rw [hc1, hc2], hmk] at hmk2
        simp at hmk2
    · have h := List.mem_singleton.mp hov
      simp [overallInsight] at h
  · intro hbc
    obtain ⟨pair, hpair, hnm⟩ := List.mem_map.mp hbc
    obtain ⟨p, hp, hf⟩ := List.mem_filterMap.mp hpair
    obtain ⟨i, c1, c2⟩ := p
    obtain ⟨hlt, hceq⟩ := List.mem_enum hp
    have hcmem : (c1, c2) ∈ (objectColsOf ds).take 3 := by
      rw [hceq]
      exact List.getElem_mem hlt
    have hcds : (c1, c2) ∈ ds.cols :=
      (List.mem_filter.mp (List.take_subset _ _ hcmem)).1
    cases hdc : dropna c2 with
    | nil =>
      rw [hdc] at hf
      dsimp only at hf
      cases hf
    | cons w ws =>
      rw [hdc] at hf
      dsimp only at hf
      by_cases hw : w.isNestedB = true
      · rw [if_pos hw] at hf
        cases hf
      · rw [if_neg hw] at hf
        by_cases h10 : ((valueCountsOf (w :: ws)).take 10).isEmpty = true
        · rw [if_pos h10] at hf
          cases hf
        · rw [if_neg h10] at hf
          cases hf
          simp only at hnm
          rw [hnm] at hcds
          have hc2 : c2 = v :: rest := keyUnique hnodup hcds hmem
          rw [hc2, hd] at hdc
          injection hdc with h1 h2
          exact hw (h1 ▸ hv)

/-- Fixture for the C9 witness: a column whose every value is a nested
mapping. -/
def nestedCells : List CellValue :=
  [CellValue.nested (Json.obj [("k", Json.num 1)]), CellValue.nested (Json.obj [])]

/-- Fixture for the C9 witness: a dataset with a nested-mapping column and a
numeric column. -/
def dsNested : Dataset :=
  ⟨2, [("cfg", nestedCells), ("n", [CellValue.num 3, CellValue.num 4])]⟩

/-- C9 witness: the nested-mapping column of the concrete dataset receives a
Complex profile and no bar chart. -/
theorem nested_column_complex_witness :
    Insight.complex "cfg" "Contains nested data (dict/list)" nestedCells.length
        ∈ (analyze_data dsNested).insights
  ∧ "cfg" ∉ (barCharts dsNested).map (·.2) := by
  have h := nested_column_complex dsNested "cfg" nestedCells (by decide)
    (List.mem_cons_self ..) (by simp [nestedCells]) (by rfl)
  exact ⟨h.1, h.2.2⟩

end DataSum
